import Mathlib

/-!
# Verification of the RPC add-on launch orchestrator

A shallow embedding of `RpcAddOns::launch_add_ons_with`,
`NodeAddOns::launch_add_ons` and `BasicEngineApiBuilder::build_engine_api`
from `crates/node/builder/src/rpc.rs`.

The orchestrator is an async Rust function whose effects are calls into
pluggable builders, hooks and server factories.  We embed it as a pure
function over a `LaunchEnv` record carrying those pluggable behaviours
(each a fallible `Except`-valued function, mirroring the `eyre::Result`
returns in the source), and we record the observable steps of a run in an
event trace.  The concurrent dual server bind
(`futures::future::try_join(launch_rpc, launch_auth)`) is parameterised by
a schedule bit saying which of the two binds completes first.
-/

namespace RethRpc

/-- Errors (`eyre::Report` in the source) are abstract values; propagating
"that error" is then propagation of the same value. -/
abbrev Err := Nat

/-- The `eth` namespace handler built by the Eth API builder.  `apiId`
abstracts its identity; `devSigners` is the number of development-only
signer accounts installed in it (a fresh handler has none; only
`with_dev_accounts` installs them). -/
structure EthApiT where
  apiId : Nat
  devSigners : Nat
  deriving Repr, DecidableEq

/-- The engine API handler as consumed by the launch path (opaque there;
the detailed structure built by `BasicEngineApiBuilder` is `EngineApi`
below). -/
structure EngineApiT where
  engineId : Nat
  deriving Repr, DecidableEq

/-- `TransportRpcModules`: the per-transport method set served over the
general transports, abstracted to the list of installed method ids.
`Clone` in Rust copies the value; in the embedding values are immutable
and "mutation" is explicit state passing, so a snapshot is just the value
at the time it is taken. -/
structure TransportRpcModules where
  methods : List Nat
  deriving Repr, DecidableEq

/-- `AuthRpcModule`: the method set served on the authenticated (engine)
listener. -/
structure AuthRpcModule where
  methods : List Nat
  deriving Repr, DecidableEq

/-- `RpcRegistryInner`: owns the constructed handler instances; exactly
one Eth handler and the engine handler per launch. -/
structure RpcRegistryInnerT where
  eth_api : EthApiT
  engine_api : EngineApiT
  deriving Repr, DecidableEq

/-- `RpcRegistry`: the wrapper struct around `RpcRegistryInner` built at
line 500 of the source. -/
structure RpcRegistry where
  registry : RpcRegistryInnerT
  deriving Repr, DecidableEq

/-- Number of dev-signer accounts generated in dev mode; the source
comment at the injection site reads "in dev mode we generate 20 random
dev-signer accounts". -/
def devSignerCount : Nat := 20

/-- Modelled from the spec: `AddDevSigners::with_dev_accounts`
(`reth_rpc_api`, not under `src/`) installs the fixed-size set of
deterministic development-only signer accounts into the Eth handler
(§4.3: "injection of a fixed-size set of deterministic development-only
signer accounts into the Eth handler"). -/
def with_dev_accounts (api : EthApiT) : EthApiT :=
  { api with devSigners := devSignerCount }

/-- The transport-module configuration
(`config.rpc.transport_rpc_module_config()`): which method ids go to the
general transports and which to the authenticated module. -/
structure TransportRpcModuleConfig where
  transportMethods : List Nat
  authMethods : List Nat
  deriving Repr, DecidableEq

/-- Modelled from the spec: `RpcModuleBuilder::build_with_auth_server`
(`reth_rpc_builder`, not under `src/`), the Module Assembler of §4.3:
from the module configuration and the two built handlers it "produces
atomically: TransportModuleSet, AuthModule, ApiRegistry", the registry
owning the handler instances. -/
def build_with_auth_server (cfg : TransportRpcModuleConfig)
    (engine_api : EngineApiT) (eth_api : EthApiT) :
    TransportRpcModules × AuthRpcModule × RpcRegistryInnerT :=
  ({ methods := cfg.transportMethods },
   { methods := cfg.authMethods },
   { eth_api := eth_api, engine_api := engine_api })

/-- Handle to the launched general-transport server.  `served` records the
method set the server was started with: the external transport-server
factory (spec §6) is "module snapshot + config → bound handle", so the
method set a launched server serves is exactly the snapshot it was given. -/
structure RpcServerHandle where
  addr : Nat
  served : List Nat
  deriving Repr, DecidableEq

/-- Handle to the launched auth (engine) server; same snapshot reading. -/
structure AuthServerHandle where
  addr : Nat
  served : List Nat
  deriving Repr, DecidableEq

/-- `RethRpcServerHandles`: the pair of handles to the two spawned
servers. -/
structure RethRpcServerHandles where
  rpc : RpcServerHandle
  auth : AuthServerHandle
  deriving Repr, DecidableEq

/-- `RpcHandle`: the handle facade returned by a successful launch. -/
structure RpcHandle where
  rpc_server_handles : RethRpcServerHandles
  rpc_registry : RpcRegistry
  engine_events : Nat
  beacon_engine_handle : Nat
  deriving Repr, DecidableEq

/-- The narrowed Eth-API build context (`EthApiCtx` in the source): the
field that matters for the launch ordering is the state-cache handle it
embeds. -/
structure EthApiCtx where
  cache : Nat
  deriving Repr, DecidableEq

/-- Observable steps of one launch run.  Hook events carry the state the
hook was invoked on; bind-start events carry the snapshot handed to the
server factory; bound events carry the resulting handle. -/
inductive Ev where
  | engineApiBuilt
  | cacheCreated
  | cacheFeedSpawned
  | ethApiBuilt
  | authConfigBuilt
  | modulesAssembled
  | devAccountsInjected
  | extRan (m : TransportRpcModules) (a : AuthRpcModule) (r : RpcRegistry)
  | extendHookRan (m : TransportRpcModules) (a : AuthRpcModule) (r : RpcRegistry)
  | rpcBindStarted (snapshot : TransportRpcModules)
  | authBindStarted (snapshot : AuthRpcModule)
  | rpcBound (h : RpcServerHandle)
  | authBound (h : AuthServerHandle)
  | handlesAssembled
  | onRpcStartedRan (hs : RethRpcServerHandles)
  | handleReturned
  deriving Repr, DecidableEq

/-- Type of the caller-supplied `ext` closure and of the registered
`extend_rpc_modules` hook: `&mut` access to modules / auth module /
registry becomes explicit state passing, failure is `Except.error`. -/
abbrev ExtHookT :=
  TransportRpcModules → AuthRpcModule → RpcRegistry →
    Except Err (TransportRpcModules × AuthRpcModule × RpcRegistry)

/-- Type of the registered `on_rpc_started` hook: the same mutable state
plus the server handles. -/
abbrev PostHookT :=
  TransportRpcModules → AuthRpcModule → RpcRegistry → RethRpcServerHandles →
    Except Err (TransportRpcModules × AuthRpcModule × RpcRegistry)

/-- Everything one invocation of `launch_add_ons_with` consumes:
the builders and hooks from the `RpcAddOns` value, the fields of the
`AddOnsContext` / `NodeConfig`, and the external server factories of
spec §6.  `auth_first` is the schedule of the concurrent dual bind:
whether the auth bind completes before the rpc bind. -/
structure LaunchEnv where
  build_engine_api : Except Err EngineApiT
  build_eth_api : EthApiCtx → Except Err EthApiT
  extend_rpc_modules : ExtHookT
  on_rpc_started : PostHookT
  auth_server_config : Except Err Nat
  module_config : TransportRpcModuleConfig
  dev : Bool
  cacheHandle : Nat
  engine_events : Nat
  beacon_engine_handle : Nat
  start_rpc_server : List Nat → Except Err Nat
  start_auth_server : List Nat → Nat → Except Err Nat
  auth_first : Bool

/-- Lines 485–500 of the source: run the module assembler on the two
built handlers, then, when `config.dev.dev` is set, inject the dev-signer
accounts into the registry's Eth handler, then wrap into `RpcRegistry`. -/
def assembled (cfg : TransportRpcModuleConfig) (dev : Bool)
    (engine_api : EngineApiT) (eth_api : EthApiT) :
    TransportRpcModules × AuthRpcModule × RpcRegistry :=
  match build_with_auth_server cfg engine_api eth_api with
  | (modules, auth_module, registry) =>
    let registry :=
      if dev then { registry with eth_api := with_dev_accounts registry.eth_api }
      else registry
    (modules, auth_module, { registry := registry })

/-- Modelled from the spec: `futures::future::try_join` (the `futures`
crate, not under `src/`), per spec §4.5 step 7 and §5: the two operations
run as independent concurrent work units; the join yields both values
when both succeed, and on first failure returns that failure without
waiting for the other, which is not cancelled.  `authFirst` says which
operation completes first, deciding whose error wins when both fail. -/
def tryJoin {A B : Type} (ra : Except Err A) (rb : Except Err B)
    (authFirst : Bool) : Except Err (A × B) :=
  match ra, rb with
  | .ok a, .ok b => .ok (a, b)
  | .error e, .ok _ => .error e
  | .ok _, .error e => .error e
  | .error ea, .error eb => .error (if authFirst then eb else ea)

/-- The completion effects of the two concurrent binds, in schedule
order: a bind that succeeds binds its listener (its bound event occurs)
even when the overall join fails — the other operation is not cancelled
(spec §5). -/
def bindCompletionEvents (rpcRes : Except Err RpcServerHandle)
    (authRes : Except Err AuthServerHandle) (authFirst : Bool) : List Ev :=
  let rpcEv : List Ev := match rpcRes with
    | .ok h => [.rpcBound h]
    | .error _ => []
  let authEv : List Ev := match authRes with
    | .ok h => [.authBound h]
    | .error _ => []
  if authFirst then authEv ++ rpcEv else rpcEv ++ authEv

/-- `RpcAddOns::launch_add_ons_with` (lines 444–560 of the source),
returning the result together with the trace of observable steps of the
run.  The phases in source order: build the engine API (`?` aborts);
create the state cache and spawn the critical cache-feed task; build the
Eth API from a context embedding the cache handle (`?` aborts); build the
auth server config from the jwt secret (`?` aborts); assemble modules /
auth module / registry with dev-account injection; run the caller `ext`
closure then the registered `extend_rpc_modules` hook (either `?`
aborts); start both servers on clones of the module sets and join
concurrently (`?` aborts); assemble the handles; run `on_rpc_started`
(`?` aborts); return the `RpcHandle`. -/
def launch_add_ons_with (env : LaunchEnv) (ext : ExtHookT) :
    Except Err RpcHandle × List Ev :=
  match env.build_engine_api with
  | .error e => (.error e, [])
  | .ok _engine_api =>
    match env.build_eth_api { cache := env.cacheHandle } with
    | .error e => (.error e, [.engineApiBuilt, .cacheCreated, .cacheFeedSpawned])
    | .ok eth_api =>
      match env.auth_server_config with
      | .error e =>
        (.error e, [.engineApiBuilt, .cacheCreated, .cacheFeedSpawned, .ethApiBuilt])
      | .ok auth_config =>
        match assembled env.module_config env.dev _engine_api eth_api with
        | (modules, auth_module, registry) =>
          let tr0 : List Ev :=
            [.engineApiBuilt, .cacheCreated, .cacheFeedSpawned, .ethApiBuilt,
             .authConfigBuilt, .modulesAssembled] ++
            (if env.dev then [.devAccountsInjected] else []) ++
            [.extRan modules auth_module registry]
          match ext modules auth_module registry with
          | .error e => (.error e, tr0)
          | .ok (m1, a1, r1) =>
            let tr1 := tr0 ++ [.extendHookRan m1 a1 r1]
            match env.extend_rpc_modules m1 a1 r1 with
            | .error e => (.error e, tr1)
            | .ok (m2, a2, r2) =>
              let cloned_modules := m2
              let cloned_auth := a2
              let rpcRes : Except Err RpcServerHandle :=
                match env.start_rpc_server cloned_modules.methods with
                | .error e => .error e
                | .ok addr => .ok { addr := addr, served := cloned_modules.methods }
              let authRes : Except Err AuthServerHandle :=
                match env.start_auth_server cloned_auth.methods auth_config with
                | .error e => .error e
                | .ok addr => .ok { addr := addr, served := cloned_auth.methods }
              let tr2 := tr1 ++
                [.rpcBindStarted cloned_modules, .authBindStarted cloned_auth] ++
                bindCompletionEvents rpcRes authRes env.auth_first
              match tryJoin rpcRes authRes env.auth_first with
              | .error e => (.error e, tr2)
              | .ok (rpc, auth) =>
                let handles : RethRpcServerHandles := { rpc := rpc, auth := auth }
                let tr3 := tr2 ++ [.handlesAssembled, .onRpcStartedRan handles]
                match env.on_rpc_started m2 a2 r2 handles with
                | .error e => (.error e, tr3)
                | .ok (_, _, r3) =>
                  (.ok { rpc_server_handles := handles, rpc_registry := r3,
                         engine_events := env.engine_events,
                         beacon_engine_handle := env.beacon_engine_handle },
                   tr3 ++ [.handleReturned])

/-- `NodeAddOns::launch_add_ons` (lines 573–575 of the source): delegates
to `launch_add_ons_with` with the closure `|_, _, _| Ok(())`, which
leaves the state unchanged and succeeds. -/
def launch_add_ons (env : LaunchEnv) : Except Err RpcHandle × List Ev :=
  launch_add_ons_with env (fun m a r => .ok (m, a, r))

/-- Modelled from the spec (claim C9's wording): "the ext closure that
does nothing and returns success". -/
def noopExt : ExtHookT := fun m a r => .ok (m, a, r)

/-- The client code constant (`CLIENT_CODE` from `reth_node_core::version`,
imported by the source; an abstract static value here). -/
def CLIENT_CODE : Nat := 0

/-- The client name constant (`NAME_CLIENT`). -/
def NAME_CLIENT : Nat := 1

/-- The crate version constant (`CARGO_PKG_VERSION`). -/
def CARGO_PKG_VERSION : Nat := 2

/-- The git commit constant (`VERGEN_GIT_SHA`). -/
def VERGEN_GIT_SHA : Nat := 3

/-- `ClientVersionV1`: the static client-identity descriptor filled by
`BasicEngineApiBuilder::build_engine_api`. -/
structure ClientVersionV1 where
  code : Nat
  name : Nat
  version : Nat
  commit : Nat
  deriving Repr, DecidableEq

/-- The default engine capabilities set
(`EngineCapabilities::default()`, abstract). -/
def engineCapabilitiesDefault : Nat := 0

/-- `PayloadStore::new`: wraps the payload-builder handle. -/
structure PayloadStore where
  handle : Nat
  deriving Repr, DecidableEq

/-- The `AddOnsContext` fields `BasicEngineApiBuilder::build_engine_api`
draws on: the node's subsystem handles, the chain config, the
beacon-engine handle and the engine flag.  `engine_validator` is the
waiting result of `engine_validator_builder.build(ctx)` for this
context. -/
structure AddOnsContextT where
  provider : Nat
  pool : Nat
  payload_builder_handle : Nat
  task_executor : Nat
  chain : Nat
  beacon_engine_handle : Nat
  accept_execution_requests_hash : Bool
  engine_validator : Except Err Nat
  deriving Repr

/-- The `EngineApi` handler record as constructed by
`EngineApi::new(provider, chain, beacon_handle, payload_store, pool,
task_spawner, client, capabilities, validator, accept_flag)` in the
source (the constructor stores its arguments). -/
structure EngineApi where
  provider : Nat
  chain_spec : Nat
  beacon_consensus : Nat
  payload_store : PayloadStore
  tx_pool : Nat
  task_spawner : Nat
  client : ClientVersionV1
  capabilities : Nat
  validator : Nat
  accept_execution_requests_hash : Bool
  deriving Repr, DecidableEq

/-- `BasicEngineApiBuilder::build_engine_api` (lines 726–748 of the
source): first build the engine validator (`?` aborts with its error),
then fill the static `ClientVersionV1` descriptor and construct the
`EngineApi` from the provider, chain config, beacon-engine handle,
payload store, pool and task-spawner drawn from the context. -/
def build_engine_api (ctx : AddOnsContextT) : Except Err EngineApi :=
  match ctx.engine_validator with
  | .error e => .error e
  | .ok engine_validator =>
    let client : ClientVersionV1 :=
      { code := CLIENT_CODE, name := NAME_CLIENT,
        version := CARGO_PKG_VERSION, commit := VERGEN_GIT_SHA }
    .ok { provider := ctx.provider,
          chain_spec := ctx.chain,
          beacon_consensus := ctx.beacon_engine_handle,
          payload_store := { handle := ctx.payload_builder_handle },
          tx_pool := ctx.pool,
          task_spawner := ctx.task_executor,
          client := client,
          capabilities := engineCapabilitiesDefault,
          validator := engine_validator,
          accept_execution_requests_hash := ctx.accept_execution_requests_hash }

/-- A sample `AddOnsContext` for witnessing the engine-api-builder
theorem. -/
def sampleCtx : AddOnsContextT where
  provider := 21
  pool := 22
  payload_builder_handle := 23
  task_executor := 24
  chain := 25
  beacon_engine_handle := 26
  accept_execution_requests_hash := true
  engine_validator := .ok 27

/-- `seg p l`: the list `p` occurs contiguously inside `l`; used to state
that consecutive steps appear in the trace in this adjacency. -/
def seg (p l : List Ev) : Prop := ∃ s t, l = s ++ p ++ t

/-- Discriminator for post-launch-hook invocation events. -/
def Ev.isOnStarted : Ev → Bool
  | .onRpcStartedRan _ => true
  | _ => false

end RethRpc

namespace RethRpc

/-- A sample environment in which every phase succeeds; used to witness
the launch theorems on concrete inputs. -/
def sampleEnv : LaunchEnv where
  build_engine_api := .ok { engineId := 1 }
  build_eth_api := fun _ => .ok { apiId := 2, devSigners := 0 }
  extend_rpc_modules := fun m a r => .ok (m, a, r)
  on_rpc_started := fun m a r _ => .ok (m, a, r)
  auth_server_config := .ok 5
  module_config := { transportMethods := [10], authMethods := [20] }
  dev := false
  cacheHandle := 3
  engine_events := 4
  beacon_engine_handle := 6
  start_rpc_server := fun _ => .ok 30
  start_auth_server := fun _ _ => .ok 40
  auth_first := false

/-- An identity `ext` closure for concrete runs. -/
def idExt : ExtHookT := fun m a r => .ok (m, a, r)

/-- The sample environment with the dev-mode flag set. -/
def devEnvW : LaunchEnv := { sampleEnv with dev := true }

/-- An `ext` closure that always fails. -/
def failExt : ExtHookT := fun _ _ _ => .error 11

/-- The sample environment with a failing registered pre-launch hook. -/
def extendFailEnvW : LaunchEnv :=
  { sampleEnv with extend_rpc_modules := fun _ _ _ => .error 12 }

/-- The sample environment in which the general-transport bind fails and
the auth bind completes first. -/
def rpcBindFailEnvW : LaunchEnv :=
  { sampleEnv with start_rpc_server := fun _ => .error 13, auth_first := true }

/-- The sample environment in which the auth bind fails first. -/
def authBindFailEnvW : LaunchEnv :=
  { sampleEnv with start_auth_server := fun _ _ => .error 14, auth_first := true }

/-- The sample environment with a failing post-launch hook. -/
def postFailEnvW : LaunchEnv :=
  { sampleEnv with on_rpc_started := fun _ _ _ _ => .error 15 }

end RethRpc

namespace RethRpc

/-- C1: on the success path (every phase succeeds) the launch performs
exactly these steps in this order: engine API built; cache created and
feed task spawned; Eth API built from a context embedding the cache
handle; auth config built; modules / auth module / registry assembled
(with dev-account injection when enabled); caller `ext` closure then
registered pre-launch hook; both server binds started on the snapshots
(the only schedule-dependent pair being their completions); handles
assembled; post-launch hook run; handle facade returned. -/
theorem launch_success_phase_order (env : LaunchEnv) (ext : ExtHookT)
    (ea : EngineApiT) (api : EthApiT) (cfg : Nat)
    (m0 : TransportRpcModules) (a0 : AuthRpcModule) (r0 : RpcRegistry)
    (m1 : TransportRpcModules) (a1 : AuthRpcModule) (r1 : RpcRegistry)
    (m2 : TransportRpcModules) (a2 : AuthRpcModule) (r2 : RpcRegistry)
    (m3 : TransportRpcModules) (a3 : AuthRpcModule) (r3 : RpcRegistry)
    (ra aa : Nat)
    (hEng : env.build_engine_api = .ok ea)
    (hEth : env.build_eth_api { cache := env.cacheHandle } = .ok api)
    (hCfg : env.auth_server_config = .ok cfg)
    (hAsm : assembled env.module_config env.dev ea api = (m0, a0, r0))
    (hExt : ext m0 a0 r0 = .ok (m1, a1, r1))
    (hExtend : env.extend_rpc_modules m1 a1 r1 = .ok (m2, a2, r2))
    (hRpc : env.start_rpc_server m2.methods = .ok ra)
    (hAuth : env.start_auth_server a2.methods cfg = .ok aa)
    (hPost : env.on_rpc_started m2 a2 r2
        { rpc := { addr := ra, served := m2.methods },
          auth := { addr := aa, served := a2.methods } } = .ok (m3, a3, r3)) :
    launch_add_ons_with env ext =
      (.ok { rpc_server_handles :=
               { rpc := { addr := ra, served := m2.methods },
                 auth := { addr := aa, served := a2.methods } },
             rpc_registry := r3,
             engine_events := env.engine_events,
             beacon_engine_handle := env.beacon_engine_handle },
       [.engineApiBuilt, .cacheCreated, .cacheFeedSpawned, .ethApiBuilt, .authConfigBuilt,
        .modulesAssembled] ++
       (if env.dev then [.devAccountsInjected] else []) ++
       [.extRan m0 a0 r0, .extendHookRan m1 a1 r1,
        .rpcBindStarted m2, .authBindStarted a2] ++
       (if env.auth_first
        then [.authBound { addr := aa, served := a2.methods },
              .rpcBound { addr := ra, served := m2.methods }]
        else [.rpcBound { addr := ra, served := m2.methods },
              .authBound { addr := aa, served := a2.methods }]) ++
       [.handlesAssembled,
        .onRpcStartedRan { rpc := { addr := ra, served := m2.methods },
                           auth := { addr := aa, served := a2.methods } },
        .handleReturned]) := by
  cases haf : env.auth_first <;>
    simp [launch_add_ons_with, hEng, hEth, hCfg, hAsm, hExt, hExtend, hRpc, hAuth, hPost,
          tryJoin, bindCompletionEvents, haf]

/-- Witness for C1: the fully successful sample run, evaluated. -/
theorem launch_success_phase_order_witness :
    launch_add_ons_with sampleEnv idExt =
      (.ok { rpc_server_handles :=
               { rpc := { addr := 30, served := [10] },
                 auth := { addr := 40, served := [20] } },
             rpc_registry :=
               { registry := { eth_api := { apiId := 2, devSigners := 0 },
                               engine_api := { engineId := 1 } } },
             engine_events := 4,
             beacon_engine_handle := 6 },
       [.engineApiBuilt, .cacheCreated, .cacheFeedSpawned, .ethApiBuilt, .authConfigBuilt,
        .modulesAssembled,
        .extRan { methods := [10] } { methods := [20] }
          { registry := { eth_api := { apiId := 2, devSigners := 0 },
                          engine_api := { engineId := 1 } } },
        .extendHookRan { methods := [10] } { methods := [20] }
          { registry := { eth_api := { apiId := 2, devSigners := 0 },
                          engine_api := { engineId := 1 } } },
        .rpcBindStarted { methods := [10] }, .authBindStarted { methods := [20] },
        .rpcBound { addr := 30, served := [10] },
        .authBound { addr := 40, served := [20] },
        .handlesAssembled,
        .onRpcStartedRan { rpc := { addr := 30, served := [10] },
                           auth := { addr := 40, served := [20] } },
        .handleReturned]) := by
  have h := launch_success_phase_order sampleEnv idExt
    { engineId := 1 } { apiId := 2, devSigners := 0 } 5
    { methods := [10] } { methods := [20] }
    { registry := { eth_api := { apiId := 2, devSigners := 0 },
                    engine_api := { engineId := 1 } } }
    { methods := [10] } { methods := [20] }
    { registry := { eth_api := { apiId := 2, devSigners := 0 },
                    engine_api := { engineId := 1 } } }
    { methods := [10] } { methods := [20] }
    { registry := { eth_api := { apiId := 2, devSigners := 0 },
                    engine_api := { engineId := 1 } } }
    { methods := [10] } { methods := [20] }
    { registry := { eth_api := { apiId := 2, devSigners := 0 },
                    engine_api := { engineId := 1 } } }
    30 40 rfl rfl rfl rfl rfl rfl rfl rfl rfl
  simpa using h

/-- C2: when the engine API builder fails, the launch returns exactly
that error and no observable step occurs at all: no cache feed spawn, no
Eth API build, no assembly, no hook, no bind. -/
theorem engine_api_failure_aborts_everything (env : LaunchEnv) (ext : ExtHookT)
    (e : Err) (hEng : env.build_engine_api = .error e) :
    launch_add_ons_with env ext = (.error e, []) := by
  simp [launch_add_ons_with, hEng]

/-- Witness for C2: the sample environment with a failing engine builder. -/
theorem engine_api_failure_aborts_everything_witness :
    launch_add_ons_with { sampleEnv with build_engine_api := .error 9 } idExt
      = (.error 9, []) :=
  engine_api_failure_aborts_everything
    { sampleEnv with build_engine_api := .error 9 } idExt 9 rfl

/-- C10: the auth-server-config construction (from the jwt secret) is an
abort point between the Eth API build and module assembly that spec §4.5
does not list: on its failure the launch returns its error with the
trace ending at the Eth API build — before assembly, dev injection, any
hook and any bind — while the critical cache-feed task has already been
spawned and nothing unwinds it. -/
theorem auth_config_failure_aborts_after_cache_spawn (env : LaunchEnv) (ext : ExtHookT)
    (ea : EngineApiT) (api : EthApiT) (e : Err)
    (hEng : env.build_engine_api = .ok ea)
    (hEth : env.build_eth_api { cache := env.cacheHandle } = .ok api)
    (hCfg : env.auth_server_config = .error e) :
    launch_add_ons_with env ext
        = (.error e, [.engineApiBuilt, .cacheCreated, .cacheFeedSpawned, .ethApiBuilt])
      ∧ Ev.cacheFeedSpawned ∈ (launch_add_ons_with env ext).2 := by
  have h : launch_add_ons_with env ext
      = (.error e, [.engineApiBuilt, .cacheCreated, .cacheFeedSpawned, .ethApiBuilt]) := by
    simp [launch_add_ons_with, hEng, hEth, hCfg]
  exact ⟨h, by simp [h]⟩

/-- Witness for C10: the sample environment with a failing auth-config
construction. -/
theorem auth_config_failure_aborts_after_cache_spawn_witness :
    launch_add_ons_with { sampleEnv with auth_server_config := .error 7 } idExt
        = (.error 7, [.engineApiBuilt, .cacheCreated, .cacheFeedSpawned, .ethApiBuilt])
      ∧ Ev.cacheFeedSpawned
          ∈ (launch_add_ons_with { sampleEnv with auth_server_config := .error 7 } idExt).2 :=
  auth_config_failure_aborts_after_cache_spawn
    { sampleEnv with auth_server_config := .error 7 } idExt
    { engineId := 1 } { apiId := 2, devSigners := 0 } 7 rfl rfl rfl

end RethRpc

namespace RethRpc

/-- No bind-completion effect is a dev-injection event. -/
theorem dev_notin_bindCompletionEvents (ra : Except Err RpcServerHandle)
    (aa : Except Err AuthServerHandle) (af : Bool) :
    Ev.devAccountsInjected ∉ bindCompletionEvents ra aa af := by
  unfold bindCompletionEvents
  rcases ra with e | h <;> rcases aa with e2 | h2 <;> cases af <;> simp

/-- Once the engine API, Eth API and auth-config phases have succeeded,
the trace is the assembly prefix — with the dev-injection event iff dev
mode — followed by the first hook event and a remainder free of
dev-injection events. -/
theorem launch_trace_decomp (env : LaunchEnv) (ext : ExtHookT)
    (ea : EngineApiT) (api : EthApiT) (cfg : Nat)
    (m0 : TransportRpcModules) (a0 : AuthRpcModule) (r0 : RpcRegistry)
    (hEng : env.build_engine_api = .ok ea)
    (hEth : env.build_eth_api { cache := env.cacheHandle } = .ok api)
    (hCfg : env.auth_server_config = .ok cfg)
    (hAsm : assembled env.module_config env.dev ea api = (m0, a0, r0)) :
    ∃ rest : List Ev,
      (launch_add_ons_with env ext).2 =
        [.engineApiBuilt, .cacheCreated, .cacheFeedSpawned, .ethApiBuilt, .authConfigBuilt] ++
        ([Ev.modulesAssembled] ++ (if env.dev then [Ev.devAccountsInjected] else []) ++
         [Ev.extRan m0 a0 r0]) ++ rest ∧
      Ev.devAccountsInjected ∉ rest := by
  rcases hx : ext m0 a0 r0 with e | ⟨m1, a1, r1⟩
  · refine ⟨[], ?_, by simp⟩
    simp [launch_add_ons_with, hEng, hEth, hCfg, hAsm, hx]
  · rcases hy : env.extend_rpc_modules m1 a1 r1 with e | ⟨m2, a2, r2⟩
    · refine ⟨[.extendHookRan m1 a1 r1], ?_, by simp⟩
      simp [launch_add_ons_with, hEng, hEth, hCfg, hAsm, hx, hy]
    · rcases hr : env.start_rpc_server m2.methods with e | ra <;>
        rcases ha : env.start_auth_server a2.methods cfg with e2 | aa
      · refine ⟨[.extendHookRan m1 a1 r1, .rpcBindStarted m2, .authBindStarted a2], ?_, by simp⟩
        cases haf : env.auth_first <;>
          simp [launch_add_ons_with, hEng, hEth, hCfg, hAsm, hx, hy, hr, ha, haf,
                tryJoin, bindCompletionEvents]
      · refine ⟨[.extendHookRan m1 a1 r1, .rpcBindStarted m2, .authBindStarted a2,
                 .authBound { addr := aa, served := a2.methods }], ?_, by simp⟩
        cases haf : env.auth_first <;>
          simp [launch_add_ons_with, hEng, hEth, hCfg, hAsm, hx, hy, hr, ha, haf,
                tryJoin, bindCompletionEvents]
      · refine ⟨[.extendHookRan m1 a1 r1, .rpcBindStarted m2, .authBindStarted a2,
                 .rpcBound { addr := ra, served := m2.methods }], ?_, by simp⟩
        cases haf : env.auth_first <;>
          simp [launch_add_ons_with, hEng, hEth, hCfg, hAsm, hx, hy, hr, ha, haf,
                tryJoin, bindCompletionEvents]
      · rcases hp : env.on_rpc_started m2 a2 r2
            { rpc := { addr := ra, served := m2.methods },
              auth := { addr := aa, served := a2.methods } } with e3 | ⟨m3, a3, r3⟩
        · refine ⟨[.extendHookRan m1 a1 r1, .rpcBindStarted m2, .authBindStarted a2] ++
              bindCompletionEvents (.ok { addr := ra, served := m2.methods })
                (.ok { addr := aa, served := a2.methods }) env.auth_first ++
              [.handlesAssembled,
               .onRpcStartedRan { rpc := { addr := ra, served := m2.methods },
                                  auth := { addr := aa, served := a2.methods } }], ?_, ?_⟩
          · cases haf : env.auth_first <;>
              simp [launch_add_ons_with, hEng, hEth, hCfg, hAsm, hx, hy, hr, ha, hp, haf,
                    tryJoin, bindCompletionEvents]
          · cases haf : env.auth_first <;> simp [bindCompletionEvents, haf]
        · refine ⟨[.extendHookRan m1 a1 r1, .rpcBindStarted m2, .authBindStarted a2] ++
              bindCompletionEvents (.ok { addr := ra, served := m2.methods })
                (.ok { addr := aa, served := a2.methods }) env.auth_first ++
              [.handlesAssembled,
               .onRpcStartedRan { rpc := { addr := ra, served := m2.methods },
                                  auth := { addr := aa, served := a2.methods } },
               .handleReturned], ?_, ?_⟩
          · cases haf : env.auth_first <;>
              simp [launch_add_ons_with, hEng, hEth, hCfg, hAsm, hx, hy, hr, ha, hp, haf,
                    tryJoin, bindCompletionEvents]
          · cases haf : env.auth_first <;> simp [bindCompletionEvents, haf]

end RethRpc

namespace RethRpc

/-- C5: with the dev flag set, the fixed nonzero count of dev-signer
accounts (`devSignerCount = 20`) is injected into the registry's Eth
handler, the injection event occurs exactly once in the trace and sits
immediately after assembly and immediately before the first hook event;
with the flag unset, the Eth handler is the builder's output unchanged
and no injection event occurs. -/
theorem dev_mode_signer_injection (env : LaunchEnv) (ext : ExtHookT)
    (ea : EngineApiT) (api : EthApiT) (cfg : Nat)
    (m0 : TransportRpcModules) (a0 : AuthRpcModule) (r0 : RpcRegistry)
    (hEng : env.build_engine_api = .ok ea)
    (hEth : env.build_eth_api { cache := env.cacheHandle } = .ok api)
    (hCfg : env.auth_server_config = .ok cfg)
    (hAsm : assembled env.module_config env.dev ea api = (m0, a0, r0)) :
    (env.dev = true →
       r0.registry.eth_api = with_dev_accounts api ∧
       r0.registry.eth_api.devSigners = devSignerCount ∧ 0 < devSignerCount ∧
       ((launch_add_ons_with env ext).2).count Ev.devAccountsInjected = 1) ∧
    (env.dev = false →
       r0.registry.eth_api = api ∧
       ((launch_add_ons_with env ext).2).count Ev.devAccountsInjected = 0) ∧
    seg ([Ev.modulesAssembled] ++ (if env.dev then [Ev.devAccountsInjected] else []) ++
         [Ev.extRan m0 a0 r0]) (launch_add_ons_with env ext).2 := by
  obtain ⟨rest, htr, hnd⟩ :=
    launch_trace_decomp env ext ea api cfg m0 a0 r0 hEng hEth hCfg hAsm
  have hrest : rest.count Ev.devAccountsInjected = 0 := List.count_eq_zero.mpr hnd
  have hr0 : r0 = (assembled env.module_config env.dev ea api).2.2 := by rw [hAsm]
  refine ⟨?_, ?_, ⟨_, rest, htr⟩⟩
  · intro hd
    have hreg : r0.registry.eth_api = with_dev_accounts api := by
      rw [hr0]; simp [assembled, build_with_auth_server, hd]
    refine ⟨hreg, by rw [hreg]; rfl, by decide, ?_⟩
    rw [htr]
    simp [hd, List.count_append, hrest, List.count_cons]
  · intro hd
    have hreg : r0.registry.eth_api = api := by
      rw [hr0]; simp [assembled, build_with_auth_server, hd]
    refine ⟨hreg, ?_⟩
    rw [htr]
    simp [hd, List.count_append, hrest, List.count_cons]

/-- Witness for C5: in the dev-mode sample environment the injection
event occurs exactly once. -/
theorem dev_mode_signer_injection_witness :
    ((launch_add_ons_with devEnvW idExt).2).count Ev.devAccountsInjected = 1 :=
  ((dev_mode_signer_injection devEnvW idExt
      { engineId := 1 } { apiId := 2, devSigners := 0 } 5
      { methods := [10] } { methods := [20] }
      { registry := { eth_api := { apiId := 2, devSigners := 20 },
                      engine_api := { engineId := 1 } } }
      rfl rfl rfl rfl).1 rfl).2.2.2

end RethRpc

namespace RethRpc

/-- Once the pre-bind phases and the caller `ext` closure have succeeded,
the trace extends the prefix ending in the two adjacent hook events. -/
theorem launch_trace_decomp2 (env : LaunchEnv) (ext : ExtHookT)
    (ea : EngineApiT) (api : EthApiT) (cfg : Nat)
    (m0 : TransportRpcModules) (a0 : AuthRpcModule) (r0 : RpcRegistry)
    (m1 : TransportRpcModules) (a1 : AuthRpcModule) (r1 : RpcRegistry)
    (hEng : env.build_engine_api = .ok ea)
    (hEth : env.build_eth_api { cache := env.cacheHandle } = .ok api)
    (hCfg : env.auth_server_config = .ok cfg)
    (hAsm : assembled env.module_config env.dev ea api = (m0, a0, r0))
    (hExt : ext m0 a0 r0 = .ok (m1, a1, r1)) :
    ∃ rest : List Ev,
      (launch_add_ons_with env ext).2 =
        ([.engineApiBuilt, .cacheCreated, .cacheFeedSpawned, .ethApiBuilt, .authConfigBuilt,
          .modulesAssembled] ++ (if env.dev then [.devAccountsInjected] else [])) ++
        [.extRan m0 a0 r0, .extendHookRan m1 a1 r1] ++ rest := by
  rcases hy : env.extend_rpc_modules m1 a1 r1 with e | ⟨m2, a2, r2⟩
  · refine ⟨[], ?_⟩
    simp [launch_add_ons_with, hEng, hEth, hCfg, hAsm, hExt, hy]
  · rcases hr : env.start_rpc_server m2.methods with e | ra <;>
      rcases ha : env.start_auth_server a2.methods cfg with e2 | aa
    · refine ⟨[.rpcBindStarted m2, .authBindStarted a2], ?_⟩
      cases haf : env.auth_first <;>
        simp [launch_add_ons_with, hEng, hEth, hCfg, hAsm, hExt, hy, hr, ha, haf,
              tryJoin, bindCompletionEvents]
    · refine ⟨[.rpcBindStarted m2, .authBindStarted a2,
               .authBound { addr := aa, served := a2.methods }], ?_⟩
      cases haf : env.auth_first <;>
        simp [launch_add_ons_with, hEng, hEth, hCfg, hAsm, hExt, hy, hr, ha, haf,
              tryJoin, bindCompletionEvents]
    · refine ⟨[.rpcBindStarted m2, .authBindStarted a2,
               .rpcBound { addr := ra, served := m2.methods }], ?_⟩
      cases haf : env.auth_first <;>
        simp [launch_add_ons_with, hEng, hEth, hCfg, hAsm, hExt, hy, hr, ha, haf,
              tryJoin, bindCompletionEvents]
    · rcases hp : env.on_rpc_started m2 a2 r2
          { rpc := { addr := ra, served := m2.methods },
            auth := { addr := aa, served := a2.methods } } with e3 | ⟨m3, a3, r3⟩
      · refine ⟨[.rpcBindStarted m2, .authBindStarted a2] ++
            bindCompletionEvents (.ok { addr := ra, served := m2.methods })
              (.ok { addr := aa, served := a2.methods }) env.auth_first ++
            [.handlesAssembled,
             .onRpcStartedRan { rpc := { addr := ra, served := m2.methods },
                                auth := { addr := aa, served := a2.methods } }], ?_⟩
        cases haf : env.auth_first <;>
          simp [launch_add_ons_with, hEng, hEth, hCfg, hAsm, hExt, hy, hr, ha, hp, haf,
                tryJoin, bindCompletionEvents]
      · refine ⟨[.rpcBindStarted m2, .authBindStarted a2] ++
            bindCompletionEvents (.ok { addr := ra, served := m2.methods })
              (.ok { addr := aa, served := a2.methods }) env.auth_first ++
            [.handlesAssembled,
             .onRpcStartedRan { rpc := { addr := ra, served := m2.methods },
                                auth := { addr := aa, served := a2.methods } },
             .handleReturned], ?_⟩
        cases haf : env.auth_first <;>
          simp [launch_add_ons_with, hEng, hEth, hCfg, hAsm, hExt, hy, hr, ha, hp, haf,
                tryJoin, bindCompletionEvents]

/-- C6: the caller-supplied `ext` closure runs strictly before the
registered `extend_rpc_modules` hook and the registered hook observes
exactly the state `ext` produced; if `ext` fails the launch returns its
error with no server-bind operation started, and likewise if the
registered hook fails. -/
theorem pre_launch_hooks_order_and_abort (env : LaunchEnv) (ext : ExtHookT)
    (ea : EngineApiT) (api : EthApiT) (cfg : Nat)
    (m0 : TransportRpcModules) (a0 : AuthRpcModule) (r0 : RpcRegistry)
    (hEng : env.build_engine_api = .ok ea)
    (hEth : env.build_eth_api { cache := env.cacheHandle } = .ok api)
    (hCfg : env.auth_server_config = .ok cfg)
    (hAsm : assembled env.module_config env.dev ea api = (m0, a0, r0)) :
    (∀ e, ext m0 a0 r0 = .error e →
       launch_add_ons_with env ext =
         (.error e,
          [.engineApiBuilt, .cacheCreated, .cacheFeedSpawned, .ethApiBuilt, .authConfigBuilt,
           .modulesAssembled] ++ (if env.dev then [.devAccountsInjected] else []) ++
          [.extRan m0 a0 r0]) ∧
       (∀ s, Ev.rpcBindStarted s ∉ (launch_add_ons_with env ext).2) ∧
       (∀ s, Ev.authBindStarted s ∉ (launch_add_ons_with env ext).2)) ∧
    (∀ m1 a1 r1, ext m0 a0 r0 = .ok (m1, a1, r1) →
       seg [Ev.extRan m0 a0 r0, Ev.extendHookRan m1 a1 r1]
         (launch_add_ons_with env ext).2 ∧
       ∀ e, env.extend_rpc_modules m1 a1 r1 = .error e →
         launch_add_ons_with env ext =
           (.error e,
            [.engineApiBuilt, .cacheCreated, .cacheFeedSpawned, .ethApiBuilt, .authConfigBuilt,
             .modulesAssembled] ++ (if env.dev then [.devAccountsInjected] else []) ++
            [.extRan m0 a0 r0, .extendHookRan m1 a1 r1]) ∧
         (∀ s, Ev.rpcBindStarted s ∉ (launch_add_ons_with env ext).2) ∧
         (∀ s, Ev.authBindStarted s ∉ (launch_add_ons_with env ext).2)) := by
  constructor
  · intro e hx
    have heq : launch_add_ons_with env ext =
        (.error e,
         [.engineApiBuilt, .cacheCreated, .cacheFeedSpawned, .ethApiBuilt, .authConfigBuilt,
          .modulesAssembled] ++ (if env.dev then [.devAccountsInjected] else []) ++
         [.extRan m0 a0 r0]) := by
      simp [launch_add_ons_with, hEng, hEth, hCfg, hAsm, hx]
    refine ⟨heq, ?_, ?_⟩ <;>
      · intro s
        rw [heq]
        cases hd : env.dev <;> simp [hd]
  · intro m1 a1 r1 hx
    obtain ⟨rest, htr⟩ :=
      launch_trace_decomp2 env ext ea api cfg m0 a0 r0 m1 a1 r1 hEng hEth hCfg hAsm hx
    refine ⟨⟨_, rest, htr⟩, ?_⟩
    intro e hy
    have heq : launch_add_ons_with env ext =
        (.error e,
         [.engineApiBuilt, .cacheCreated, .cacheFeedSpawned, .ethApiBuilt, .authConfigBuilt,
          .modulesAssembled] ++ (if env.dev then [.devAccountsInjected] else []) ++
         [.extRan m0 a0 r0, .extendHookRan m1 a1 r1]) := by
      simp [launch_add_ons_with, hEng, hEth, hCfg, hAsm, hx, hy]
    refine ⟨heq, ?_, ?_⟩ <;>
      · intro s
        rw [heq]
        cases hd : env.dev <;> simp [hd]

/-- Witness for C6: the failing `ext` closure aborts the sample launch
with its error and the trace ends at the `ext` invocation. -/
theorem pre_launch_hooks_order_and_abort_witness :
    launch_add_ons_with sampleEnv failExt =
      (.error 11,
       [.engineApiBuilt, .cacheCreated, .cacheFeedSpawned, .ethApiBuilt, .authConfigBuilt,
        .modulesAssembled,
        .extRan { methods := [10] } { methods := [20] }
          { registry := { eth_api := { apiId := 2, devSigners := 0 },
                          engine_api := { engineId := 1 } } }]) :=
  ((pre_launch_hooks_order_and_abort sampleEnv failExt
      { engineId := 1 } { apiId := 2, devSigners := 0 } 5
      { methods := [10] } { methods := [20] }
      { registry := { eth_api := { apiId := 2, devSigners := 0 },
                      engine_api := { engineId := 1 } } }
      rfl rfl rfl rfl).1 11 rfl).1

end RethRpc

namespace RethRpc

/-- C7: when both server binds succeed, the post-launch hook is invoked
exactly once and receives the pair of bound handles; if it fails, the
launch reports its error even though both bound events are in the trace
and nothing tears the servers down. -/
theorem post_hook_runs_once_with_both_handles (env : LaunchEnv) (ext : ExtHookT)
    (ea : EngineApiT) (api : EthApiT) (cfg : Nat)
    (m0 : TransportRpcModules) (a0 : AuthRpcModule) (r0 : RpcRegistry)
    (m1 : TransportRpcModules) (a1 : AuthRpcModule) (r1 : RpcRegistry)
    (m2 : TransportRpcModules) (a2 : AuthRpcModule) (r2 : RpcRegistry)
    (ra aa : Nat)
    (hEng : env.build_engine_api = .ok ea)
    (hEth : env.build_eth_api { cache := env.cacheHandle } = .ok api)
    (hCfg : env.auth_server_config = .ok cfg)
    (hAsm : assembled env.module_config env.dev ea api = (m0, a0, r0))
    (hExt : ext m0 a0 r0 = .ok (m1, a1, r1))
    (hExtend : env.extend_rpc_modules m1 a1 r1 = .ok (m2, a2, r2))
    (hRpc : env.start_rpc_server m2.methods = .ok ra)
    (hAuth : env.start_auth_server a2.methods cfg = .ok aa) :
    ((launch_add_ons_with env ext).2).countP Ev.isOnStarted = 1 ∧
    Ev.onRpcStartedRan { rpc := { addr := ra, served := m2.methods },
                         auth := { addr := aa, served := a2.methods } }
      ∈ (launch_add_ons_with env ext).2 ∧
    (∀ e, env.on_rpc_started m2 a2 r2
        { rpc := { addr := ra, served := m2.methods },
          auth := { addr := aa, served := a2.methods } } = .error e →
      (launch_add_ons_with env ext).1 = .error e ∧
      Ev.rpcBound { addr := ra, served := m2.methods } ∈ (launch_add_ons_with env ext).2 ∧
      Ev.authBound { addr := aa, served := a2.methods } ∈ (launch_add_ons_with env ext).2) := by
  rcases hp : env.on_rpc_started m2 a2 r2
      { rpc := { addr := ra, served := m2.methods },
        auth := { addr := aa, served := a2.methods } } with e3 | ⟨m3, a3, r3⟩ <;>
    cases haf : env.auth_first <;>
    cases hd : env.dev <;>
    simp only [hd] at hAsm <;>
    refine ⟨?_, ?_, ?_⟩ <;>
    simp [launch_add_ons_with, hEng, hEth, hCfg, hAsm, hExt, hExtend, hRpc, hAuth, hp,
          haf, hd, tryJoin, bindCompletionEvents, Ev.isOnStarted]

/-- Witness for C7: in the sample environment with a failing post-launch
hook the launch fails with the hook error while both bound events are in
the trace. -/
theorem post_hook_runs_once_with_both_handles_witness :
    (launch_add_ons_with postFailEnvW idExt).1 = .error 15 ∧
    Ev.rpcBound { addr := 30, served := [10] } ∈ (launch_add_ons_with postFailEnvW idExt).2 ∧
    Ev.authBound { addr := 40, served := [20] } ∈ (launch_add_ons_with postFailEnvW idExt).2 :=
  (post_hook_runs_once_with_both_handles postFailEnvW idExt
      { engineId := 1 } { apiId := 2, devSigners := 0 } 5
      { methods := [10] } { methods := [20] }
      { registry := { eth_api := { apiId := 2, devSigners := 0 },
                      engine_api := { engineId := 1 } } }
      { methods := [10] } { methods := [20] }
      { registry := { eth_api := { apiId := 2, devSigners := 0 },
                      engine_api := { engineId := 1 } } }
      { methods := [10] } { methods := [20] }
      { registry := { eth_api := { apiId := 2, devSigners := 0 },
                      engine_api := { engineId := 1 } } }
      30 40 rfl rfl rfl rfl rfl rfl rfl rfl).2.2 15 rfl

end RethRpc

namespace RethRpc

/-- C3: both servers are started on the value snapshots of the module
sets taken after the pre-launch hooks ran (the bind-start events carry
exactly those snapshots), the launched servers serve exactly those
snapshots, and nothing the post-launch hook does — for every post-launch
hook `g` — changes the served sets or the handles the launch returns. -/
theorem launched_servers_serve_snapshots (env : LaunchEnv) (ext : ExtHookT)
    (ea : EngineApiT) (api : EthApiT) (cfg : Nat)
    (m0 : TransportRpcModules) (a0 : AuthRpcModule) (r0 : RpcRegistry)
    (m1 : TransportRpcModules) (a1 : AuthRpcModule) (r1 : RpcRegistry)
    (m2 : TransportRpcModules) (a2 : AuthRpcModule) (r2 : RpcRegistry)
    (ra aa : Nat)
    (hEng : env.build_engine_api = .ok ea)
    (hEth : env.build_eth_api { cache := env.cacheHandle } = .ok api)
    (hCfg : env.auth_server_config = .ok cfg)
    (hAsm : assembled env.module_config env.dev ea api = (m0, a0, r0))
    (hExt : ext m0 a0 r0 = .ok (m1, a1, r1))
    (hExtend : env.extend_rpc_modules m1 a1 r1 = .ok (m2, a2, r2))
    (hRpc : env.start_rpc_server m2.methods = .ok ra)
    (hAuth : env.start_auth_server a2.methods cfg = .ok aa) :
    ∀ g : PostHookT,
      Ev.rpcBindStarted m2
          ∈ (launch_add_ons_with { env with on_rpc_started := g } ext).2 ∧
      Ev.authBindStarted a2
          ∈ (launch_add_ons_with { env with on_rpc_started := g } ext).2 ∧
      Ev.rpcBound { addr := ra, served := m2.methods }
          ∈ (launch_add_ons_with { env with on_rpc_started := g } ext).2 ∧
      Ev.authBound { addr := aa, served := a2.methods }
          ∈ (launch_add_ons_with { env with on_rpc_started := g } ext).2 ∧
      ∀ h tr, launch_add_ons_with { env with on_rpc_started := g } ext = (.ok h, tr) →
        h.rpc_server_handles =
          { rpc := { addr := ra, served := m2.methods },
            auth := { addr := aa, served := a2.methods } } := by
  intro g
  rcases hp : g m2 a2 r2
      { rpc := { addr := ra, served := m2.methods },
        auth := { addr := aa, served := a2.methods } } with e3 | ⟨m3, a3, r3⟩ <;>
    cases haf : env.auth_first <;>
    cases hd : env.dev <;>
    simp only [hd] at hAsm <;>
    refine ⟨?_, ?_, ?_, ?_, ?_⟩ <;>
    simp [launch_add_ons_with, hEng, hEth, hCfg, hAsm, hExt, hExtend, hRpc, hAuth, hp,
          haf, hd, tryJoin, bindCompletionEvents]

/-- Witness for C3: under a failing post-launch hook the sample launch
still binds the general server on the pre-hook snapshot. -/
theorem launched_servers_serve_snapshots_witness :
    Ev.rpcBound { addr := 30, served := [10] }
      ∈ (launch_add_ons_with
          { sampleEnv with on_rpc_started := fun _ _ _ _ => .error 15 } idExt).2 :=
  (launched_servers_serve_snapshots sampleEnv idExt
      { engineId := 1 } { apiId := 2, devSigners := 0 } 5
      { methods := [10] } { methods := [20] }
      { registry := { eth_api := { apiId := 2, devSigners := 0 },
                      engine_api := { engineId := 1 } } }
      { methods := [10] } { methods := [20] }
      { registry := { eth_api := { apiId := 2, devSigners := 0 },
                      engine_api := { engineId := 1 } } }
      { methods := [10] } { methods := [20] }
      { registry := { eth_api := { apiId := 2, devSigners := 0 },
                      engine_api := { engineId := 1 } } }
      30 40 rfl rfl rfl rfl rfl rfl rfl rfl
      (fun _ _ _ _ => .error 15)).2.2.1

/-- C4: when one of the two concurrent binds fails first, the launch
returns that bind error, while a concurrently succeeding other bind
still binds its listener (its bound event is in the trace) and its
handle is never returned — the other operation is not cancelled; when
both fail, the error of the first-completed bind is returned. -/
theorem first_bind_failure_aborts_without_cancelling (env : LaunchEnv) (ext : ExtHookT)
    (ea : EngineApiT) (api : EthApiT) (cfg : Nat)
    (m0 : TransportRpcModules) (a0 : AuthRpcModule) (r0 : RpcRegistry)
    (m1 : TransportRpcModules) (a1 : AuthRpcModule) (r1 : RpcRegistry)
    (m2 : TransportRpcModules) (a2 : AuthRpcModule) (r2 : RpcRegistry)
    (hEng : env.build_engine_api = .ok ea)
    (hEth : env.build_eth_api { cache := env.cacheHandle } = .ok api)
    (hCfg : env.auth_server_config = .ok cfg)
    (hAsm : assembled env.module_config env.dev ea api = (m0, a0, r0))
    (hExt : ext m0 a0 r0 = .ok (m1, a1, r1))
    (hExtend : env.extend_rpc_modules m1 a1 r1 = .ok (m2, a2, r2)) :
    (∀ e ra, env.start_auth_server a2.methods cfg = .error e →
       env.start_rpc_server m2.methods = .ok ra →
       (launch_add_ons_with env ext).1 = .error e ∧
       Ev.rpcBound { addr := ra, served := m2.methods }
         ∈ (launch_add_ons_with env ext).2) ∧
    (∀ e aa, env.start_rpc_server m2.methods = .error e →
       env.start_auth_server a2.methods cfg = .ok aa →
       (launch_add_ons_with env ext).1 = .error e ∧
       Ev.authBound { addr := aa, served := a2.methods }
         ∈ (launch_add_ons_with env ext).2) ∧
    (∀ e1 e2, env.start_rpc_server m2.methods = .error e1 →
       env.start_auth_server a2.methods cfg = .error e2 →
       (launch_add_ons_with env ext).1 = .error (if env.auth_first then e2 else e1)) := by
  refine ⟨?_, ?_, ?_⟩
  · intro e ra ha hr
    cases haf : env.auth_first <;> cases hd : env.dev <;>
      simp only [hd] at hAsm <;>
      constructor <;>
      simp [launch_add_ons_with, hEng, hEth, hCfg, hAsm, hExt, hExtend, hr, ha,
            haf, hd, tryJoin, bindCompletionEvents]
  · intro e aa hr ha
    cases haf : env.auth_first <;> cases hd : env.dev <;>
      simp only [hd] at hAsm <;>
      constructor <;>
      simp [launch_add_ons_with, hEng, hEth, hCfg, hAsm, hExt, hExtend, hr, ha,
            haf, hd, tryJoin, bindCompletionEvents]
  · intro e1 e2 hr ha
    cases haf : env.auth_first <;> cases hd : env.dev <;>
      simp only [hd] at hAsm <;>
      simp [launch_add_ons_with, hEng, hEth, hCfg, hAsm, hExt, hExtend, hr, ha,
            haf, hd, tryJoin, bindCompletionEvents]

/-- Witness for C4: in the sample environment where the auth bind fails
first, the launch fails with the auth bind error while the general
server's listener is still bound. -/
theorem first_bind_failure_aborts_without_cancelling_witness :
    (launch_add_ons_with authBindFailEnvW idExt).1 = .error 14 ∧
    Ev.rpcBound { addr := 30, served := [10] }
      ∈ (launch_add_ons_with authBindFailEnvW idExt).2 :=
  (first_bind_failure_aborts_without_cancelling authBindFailEnvW idExt
      { engineId := 1 } { apiId := 2, devSigners := 0 } 5
      { methods := [10] } { methods := [20] }
      { registry := { eth_api := { apiId := 2, devSigners := 0 },
                      engine_api := { engineId := 1 } } }
      { methods := [10] } { methods := [20] }
      { registry := { eth_api := { apiId := 2, devSigners := 0 },
                      engine_api := { engineId := 1 } } }
      { methods := [10] } { methods := [20] }
      { registry := { eth_api := { apiId := 2, devSigners := 0 },
                      engine_api := { engineId := 1 } } }
      rfl rfl rfl rfl rfl rfl).1 14 30 rfl rfl

end RethRpc

namespace RethRpc

/-- C8: `build_engine_api` first runs the wrapped engine validator
builder — an error there aborts the build with that error — and on its
success constructs the `EngineApi` with the static client-identity
descriptor and the provider, chain config, beacon-engine handle, payload
store, transaction pool and task-spawner drawn from the context. -/
theorem basic_engine_api_builder_correct (ctx : AddOnsContextT) :
    (∀ e, ctx.engine_validator = .error e → build_engine_api ctx = .error e) ∧
    (∀ v, ctx.engine_validator = .ok v →
       build_engine_api ctx =
         .ok { provider := ctx.provider,
               chain_spec := ctx.chain,
               beacon_consensus := ctx.beacon_engine_handle,
               payload_store := { handle := ctx.payload_builder_handle },
               tx_pool := ctx.pool,
               task_spawner := ctx.task_executor,
               client := { code := CLIENT_CODE, name := NAME_CLIENT,
                           version := CARGO_PKG_VERSION, commit := VERGEN_GIT_SHA },
               capabilities := engineCapabilitiesDefault,
               validator := v,
               accept_execution_requests_hash :=
                 ctx.accept_execution_requests_hash }) := by
  constructor
  · intro e he
    simp [build_engine_api, he]
  · intro v hv
    simp [build_engine_api, hv]

/-- Witness for C8: the sample context with a successfully built
validator. -/
theorem basic_engine_api_builder_correct_witness :
    build_engine_api sampleCtx =
      .ok { provider := 21, chain_spec := 25, beacon_consensus := 26,
            payload_store := { handle := 23 }, tx_pool := 22, task_spawner := 24,
            client := { code := CLIENT_CODE, name := NAME_CLIENT,
                        version := CARGO_PKG_VERSION, commit := VERGEN_GIT_SHA },
            capabilities := engineCapabilitiesDefault, validator := 27,
            accept_execution_requests_hash := true } :=
  (basic_engine_api_builder_correct sampleCtx).2 27 rfl

/-- C9: `launch_add_ons` is exactly `launch_add_ons_with` applied to the
no-op always-succeeding `ext` closure: same result and same effect trace
for every environment. -/
theorem launch_add_ons_is_launch_with_noop (env : LaunchEnv) :
    launch_add_ons env = launch_add_ons_with env noopExt := rfl

end RethRpc
